import Mathlib

/-!
Verification development for the fixer-app frontend core:
the notification socket (src/frontend/src/api/client.ts, class NotificationSocket),
the axios response interceptor (same file), and the auth store
(src/frontend/src/hooks/useAuth.ts).

The TypeScript runs single-threaded and event-driven; we embed it as pure
state-transformer functions over an explicit world state.  Host primitives
(WebSocket ready-state transitions, timers, JSON.parse) are modelled as
explicit events / oracles supplied by the environment.
-/

namespace Fixer

/-- A user-facing toast alert, one constructor per distinct `toast.*` call
site in the embedded code.  The message texts in the source are Russian;
we identify each alert by its call site. -/
inductive Toast where
  /-- interceptor 401: session expired, log in again -/
  | sessionExpired
  /-- interceptor 403: no permission -/
  | permissionDenied
  /-- interceptor 5xx: server error -/
  | serverError
  /-- interceptor, no response: network error -/
  | networkError
  /-- login catch, 401: wrong email or password -/
  | invalidCredentials
  /-- login catch, other: generic login failure -/
  | loginFailed
  /-- login success: welcome message with the user's full name -/
  | welcome (name : String)
  /-- logout: goodbye message -/
  | goodbye
  /-- NotificationSocket.handleMessage ticket notification with its message text -/
  | ticketMsg (msg : String)
  deriving DecidableEq, Repr

/-- An axios error as seen by the response interceptor:
`status = some n` models `error.response.status = n`;
`status = none` models no response received (network failure). -/
structure HttpError where
  status : Option Nat
  deriving DecidableEq, Repr

/-- interface User (client.ts).  The role union type is kept as a string. -/
structure User where
  id : Nat
  email : String
  full_name : String
  role : String
  is_active : Bool
  created_at : String
  deriving DecidableEq, Repr

/-- interface LoginResponse (client.ts). -/
structure LoginResponse where
  access_token : String
  token_type : String
  deriving DecidableEq, Repr

/-! ## NotificationSocket (client.ts lines 216-322)

A browser WebSocket's ready-state.  `opened` is WebSocket.OPEN (the name
`open` is a Lean keyword). -/

inductive ReadyState where
  | connecting
  | opened
  | closing
  | closed
  deriving DecidableEq, Repr

/-- One WebSocket object ever constructed by the instance.  All sockets keep
their event handlers attached for their whole life (the source never removes
them), so every close event of every created socket runs attemptReconnect,
and every open event resets the shared attempt counter. -/
structure Sock where
  state : ReadyState
  url : String
  deriving DecidableEq, Repr

/-- The state of one NotificationSocket instance plus the timers it has
scheduled and the console/toast output it has produced.  `sockets` lists
every WebSocket ever constructed, in creation order; `ws` is the index of
the currently referenced one (`this.ws`), if any. -/
structure NSState where
  sockets : List Sock
  ws : Option Nat
  userId : Option Nat
  reconnectInterval : Nat
  maxReconnectAttempts : Nat
  reconnectAttempts : Nat
  /-- delays of scheduled, not yet fired, reconnect setTimeout calls -/
  pendingTimers : List Nat
  /-- intervals of the setInterval heartbeats started in onopen (never cleared) -/
  heartbeats : List Nat
  logs : List String
  toasts : List Toast
  pageSecure : Bool
  host : String
  deriving DecidableEq, Repr

namespace NSState

/-- The field initializers of class NotificationSocket, with an empty
creation/output history.  The page host and scheme are those of the dev
server; no claim depends on them. -/
def init : NSState :=
  { sockets := []
  , ws := none
  , userId := none
  , reconnectInterval := 5000
  , maxReconnectAttempts := 10
  , reconnectAttempts := 0
  , pendingTimers := []
  , heartbeats := []
  , logs := []
  , toasts := []
  , pageSecure := false
  , host := "localhost:3000" }

/-- The connection URL built in createConnection; a missing userId
interpolates as the text "null", as in JS template strings. -/
def wsUrl (s : NSState) : String :=
  (if s.pageSecure then "wss:" else "ws:") ++ "//" ++ s.host ++ "/api/tickets/ws/" ++
    (match s.userId with
     | some u => toString u
     | none => "null")

/-- The guard `this.ws?.readyState === WebSocket.OPEN` at the top of
createConnection: true iff a socket is referenced and it is open. -/
def heldOpen (s : NSState) : Bool :=
  match s.ws with
  | some i =>
    match s.sockets[i]? with
    | some sk => sk.state == ReadyState.opened
    | none => false
  | none => false

/-- NotificationSocket.createConnection: skip when the referenced socket is
open; otherwise construct a fresh WebSocket (state CONNECTING) and overwrite
`this.ws` with it.  An overwritten socket that was still connecting is
abandoned, not closed. -/
def createConnection (s : NSState) : NSState :=
  if heldOpen s then s
  else
    { s with
      sockets := s.sockets ++ [{ state := ReadyState.connecting, url := wsUrl s }]
    , ws := some s.sockets.length }

/-- NotificationSocket.connect: store the id, zero the attempt counter, try
to open. -/
def connect (s : NSState) (uid : Nat) : NSState :=
  createConnection { s with userId := some uid, reconnectAttempts := 0 }

/-- NotificationSocket.attemptReconnect: give up (log only, no toast, no
timer) at the attempt ceiling, otherwise count the attempt and schedule
createConnection after reconnectInterval. -/
def attemptReconnect (s : NSState) : NSState :=
  if s.reconnectAttempts ≥ s.maxReconnectAttempts then
    { s with logs := s.logs ++ ["max reconnect attempts exceeded"] }
  else
    { s with
      reconnectAttempts := s.reconnectAttempts + 1
    , logs := s.logs ++ ["reconnect attempt scheduled"]
    , pendingTimers := s.pendingTimers ++ [s.reconnectInterval] }

/-- NotificationSocket.disconnect: `this.ws.close(); this.ws = null` when a
socket is referenced.  close() moves a CONNECTING or OPEN socket to CLOSING
(its close event will still fire later); it is a no-op on a CLOSING or
CLOSED socket.  The handlers stay attached. -/
def disconnect (s : NSState) : NSState :=
  match s.ws with
  | none => s
  | some i =>
    { s with
      ws := none
    , sockets :=
        match s.sockets[i]? with
        | some sk =>
          if sk.state = ReadyState.connecting ∨ sk.state = ReadyState.opened then
            s.sockets.set i { sk with state := ReadyState.closing }
          else s.sockets
        | none => s.sockets }

/-- Environment event: socket `i` finishes its handshake and becomes OPEN;
its onopen handler runs: log, reset the shared attempt counter, start a
30000ms heartbeat interval.  Applies only to a CONNECTING socket. -/
def sockOpened (s : NSState) (i : Nat) : NSState :=
  match s.sockets[i]? with
  | some sk =>
    if sk.state = ReadyState.connecting then
      { s with
        sockets := s.sockets.set i { sk with state := ReadyState.opened }
      , reconnectAttempts := 0
      , heartbeats := s.heartbeats ++ [30000]
      , logs := s.logs ++ ["WebSocket connected"] }
    else s
  | none => s

/-- Environment event: socket `i` closes (handshake failure, network drop,
server shutdown, or completion of a close()); its onclose handler runs:
log, then attemptReconnect.  Applies to any not-yet-closed socket — also to
an abandoned or explicitly disconnected one, since handlers stay attached. -/
def sockClosed (s : NSState) (i : Nat) : NSState :=
  match s.sockets[i]? with
  | some sk =>
    if sk.state = ReadyState.closed then s
    else
      attemptReconnect
        { s with
          sockets := s.sockets.set i { sk with state := ReadyState.closed }
        , logs := s.logs ++ ["WebSocket closed"] }
  | none => s

/-- Environment event: one pending reconnect timer fires and runs
createConnection. -/
def timerFire (s : NSState) : NSState :=
  match s.pendingTimers with
  | [] => s
  | _ :: rest => createConnection { s with pendingTimers := rest }

end NSState

/-- The events driving one NotificationSocket instance: the two public calls
and the three host-environment callbacks. -/
inductive NSEvent where
  | evConnect (uid : Nat)
  | evDisconnect
  | evOpen (i : Nat)
  | evClose (i : Nat)
  | evTimer
  deriving DecidableEq, Repr

/-- One step of the socket system. -/
def nsStep (s : NSState) : NSEvent → NSState
  | .evConnect uid => s.connect uid
  | .evDisconnect => s.disconnect
  | .evOpen i => s.sockOpened i
  | .evClose i => s.sockClosed i
  | .evTimer => s.timerFire

/-- Run a trace of events. -/
def nsRun (s : NSState) (es : List NSEvent) : NSState :=
  es.foldl nsStep s

/-- How many of the sockets this instance ever created are open right now. -/
def countOpen (s : NSState) : Nat :=
  s.sockets.countP (fun sk => sk.state == ReadyState.opened)

/-! ## Inbound message handling (client.ts lines 252-300)

Dynamically-typed JSON values as produced by JSON.parse, plus JS `undefined`
for missing object properties. -/

inductive JsonVal where
  | jnull
  | jundefined
  | jstr (s : String)
  | jnum (n : Int)
  | jbool (b : Bool)
  | jarr (xs : List JsonVal)
  | jobj (fields : List (String × JsonVal))

/-- JS property access `v.k`: throws a TypeError (modelled as `.error ()`)
on null/undefined, yields the field or `undefined` on an object, and
`undefined` on other primitives (whose own properties are irrelevant here). -/
def jsGet (v : JsonVal) (k : String) : Except Unit JsonVal :=
  match v with
  | .jnull => .error ()
  | .jundefined => .error ()
  | .jobj fields =>
    .ok (match fields.lookup k with
         | some x => x
         | none => .jundefined)
  | _ => .ok .jundefined

/-- JS strict equality of a dynamic value against a string literal. -/
def jsStrEq (v : JsonVal) (s : String) : Bool :=
  match v with
  | .jstr t => t == s
  | _ => false

/-- JS template-string coercion of a value.  (Array coercion is approximated
by the empty string; no claim exercises it.) -/
def jsToString : JsonVal → String
  | .jnull => "null"
  | .jundefined => "undefined"
  | .jstr s => s
  | .jnum n => toString n
  | .jbool b => if b then "true" else "false"
  | .jarr _ => ""
  | .jobj _ => "[object Object]"

/-- NotificationSocket.handleMessage.  A thrown TypeError (property access
on undefined/null, e.g. `ticket.title` when no `ticket` field is present)
is `.error ()`.  Returns the toast to show, if any.  The messages are the
Russian templates of the source switch. -/
def handleMessage (data : JsonVal) : Except Unit (Option Toast) := do
  let ty ← jsGet data "type"
  if jsStrEq ty "ticket_updated" then
    let action ← jsGet data "action"
    let ticket ← jsGet data "ticket"
    let title ← jsGet ticket "title"
    let msg :=
      if jsStrEq action "created" then "Создана новая заявка: " ++ jsToString title
      else if jsStrEq action "assigned" then "Заявка назначена: " ++ jsToString title
      else if jsStrEq action "status_changed" then "Изменен статус заявки: " ++ jsToString title
      else "Обновлена заявка: " ++ jsToString title
    pure (some (Toast.ticketMsg msg))
  else
    pure none

/-- The body of the onmessage try-block.  The host's JSON.parse is modelled
by the oracle argument: `none` is an unparseable frame (JSON.parse threw,
e.g. on the text not-json), `some data` a parsed value.  handleMessage is
called inside the same try-block, so its throw also surfaces here. -/
def onmessageBody (s : NSState) (parsed : Option JsonVal) : Except Unit NSState :=
  match parsed with
  | none => .error ()
  | some data =>
    (handleMessage data).map fun t =>
      match t with
      | none => s
      | some toast => { s with toasts := s.toasts ++ [toast] }

/-- The installed onmessage handler: the try-block with its catch, which
logs any thrown error and returns normally.  Total on all inputs — no
exception escapes. -/
def onmessage (s : NSState) (parsed : Option JsonVal) : NSState :=
  match onmessageBody s parsed with
  | .ok s' => s'
  | .error _ => { s with logs := s.logs ++ ["WebSocket message parse error"] }

/-! ## Session store and request gateway
(useAuth.ts, client.ts lines 87-148) -/

/-- The zustand store slice of useAuthStore. -/
structure AuthState where
  user : Option User
  isLoading : Bool
  isAuthenticated : Bool
  deriving DecidableEq, Repr

/-- The store's initial values (useAuth.ts lines 18-20). -/
def initialStore : AuthState :=
  { user := none, isLoading := true, isAuthenticated := false }

/-- The world as the embedded code sees it: the persisted credential
(localStorage access_token), the last location assignment, the toast
history, the auth store, and the module-level notificationSocket instance. -/
structure World where
  token : Option String
  location : Option String
  toasts : List Toast
  store : AuthState
  sock : NSState
  deriving DecidableEq, Repr

/-- The error arm of api.interceptors.response (client.ts lines 105-119):
401 deletes the credential, forces navigation to /login and toasts
session-expired; 403, 5xx and network failures only toast; everything else
is untouched.  The interceptor always re-rejects, so the caller still sees
the error (see apiCall). -/
def interceptError (w : World) (e : HttpError) : World :=
  match e.status with
  | some s =>
    if s = 401 then
      { w with
        token := none
      , location := some "/login"
      , toasts := w.toasts ++ [Toast.sessionExpired] }
    else if s = 403 then { w with toasts := w.toasts ++ [Toast.permissionDenied] }
    else if s ≥ 500 then { w with toasts := w.toasts ++ [Toast.serverError] }
    else w
  | none => { w with toasts := w.toasts ++ [Toast.networkError] }

/-- One outbound call through the api instance: the oracle gives the
transport outcome; a failure outcome runs the response interceptor and is
re-thrown to the caller unchanged. -/
def apiCall {α : Type} (w : World) (res : Except HttpError α) :
    World × Except HttpError α :=
  match res with
  | .ok a => (w, .ok a)
  | .error e => (interceptError w e, .error e)

/-- The catch-block of useAuthStore.login (useAuth.ts lines 46-57): stop the
spinner, toast invalid-credentials on 401 and a generic failure otherwise.
(The caller then sees the re-thrown error via login's result.) -/
def loginCatch (w : World) (e : HttpError) : World :=
  let w := { w with store := { w.store with isLoading := false } }
  if e.status = some 401 then { w with toasts := w.toasts ++ [Toast.invalidCredentials] }
  else { w with toasts := w.toasts ++ [Toast.loginFailed] }

/-- useAuthStore.login (useAuth.ts lines 22-58).  The two awaited calls —
authAPI.login and authAPI.getCurrentUser — are given as oracles; each routes
through the response interceptor on failure.  On the success path: persist
the token, populate the store, connect the socket with the user's id, toast
a welcome.  Any failure runs the catch-block and re-throws. -/
def login (w : World) (loginRes : Except HttpError LoginResponse)
    (userRes : Except HttpError User) : World × Except HttpError Unit :=
  let w0 := { w with store := { w.store with isLoading := true } }
  match apiCall w0 loginRes with
  | (w1, .error e) => (loginCatch w1 e, .error e)
  | (w1, .ok lr) =>
    let w2 := { w1 with token := some lr.access_token }
    match apiCall w2 userRes with
    | (w3, .error e) => (loginCatch w3 e, .error e)
    | (w3, .ok user) =>
      let w4 := { w3 with store := { user := some user, isAuthenticated := true, isLoading := false } }
      let w5 := { w4 with sock := w4.sock.connect user.id }
      ({ w5 with toasts := w5.toasts ++ [Toast.welcome user.full_name] }, .ok ())

/-- The first half of useAuthStore.logout (useAuth.ts lines 60-63): delete
the credential and disconnect the socket.  Split out to state the ordering:
this runs before the store is cleared. -/
def logoutTearDown (w : World) : World :=
  { w with token := none, sock := w.sock.disconnect }

/-- useAuthStore.logout (useAuth.ts lines 60-75): tear down, clear the
store, toast a goodbye (unconditionally), redirect to /login.  Synchronous;
no operation in it can throw. -/
def logout (w : World) : World :=
  let w1 := logoutTearDown w
  { w1 with
    store := { user := none, isAuthenticated := false, isLoading := false }
  , toasts := w1.toasts ++ [Toast.goodbye]
  , location := some "/login" }

/-- useAuthStore.initializeAuth (useAuth.ts lines 77-107).  No credential:
mark unauthenticated with no network call.  Credential present: validate it
by fetching the current user (oracle, routed through the interceptor);
success populates the store and connects the socket; any failure lands in
the catch-block, which deletes the credential and clears the store — the
catch itself shows no toast. -/
def initializeAuth (w : World) (userRes : Except HttpError User) : World :=
  match w.token with
  | none => { w with store := { w.store with isLoading := false, isAuthenticated := false } }
  | some _ =>
    match apiCall w userRes with
    | (w1, .ok user) =>
      let w2 := { w1 with store := { user := some user, isAuthenticated := true, isLoading := false } }
      { w2 with sock := w2.sock.connect user.id }
    | (w1, .error _) =>
      { w1 with
        token := none
      , store := { user := none, isAuthenticated := false, isLoading := false } }

/-- Assigning window.location.href forces a full page load: all in-memory
JS state (store, socket instance, pending toasts) is discarded and rebuilt
from the module initializers; only localStorage (the credential) and the
target location survive. -/
def reload (w : World) : World :=
  { token := w.token
  , location := w.location
  , toasts := []
  , store := initialStore
  , sock := NSState.init }

/-! ## Helper lemmas -/

theorem createConnection_userId (s : NSState) :
    s.createConnection.userId = s.userId := by
  unfold NSState.createConnection
  split <;> rfl

theorem createConnection_toasts (s : NSState) :
    s.createConnection.toasts = s.toasts := by
  unfold NSState.createConnection
  split <;> rfl

theorem createConnection_reconnectAttempts (s : NSState) :
    s.createConnection.reconnectAttempts = s.reconnectAttempts := by
  unfold NSState.createConnection
  split <;> rfl

theorem createConnection_pendingTimers (s : NSState) :
    s.createConnection.pendingTimers = s.pendingTimers := by
  unfold NSState.createConnection
  split <;> rfl

theorem connect_userId (s : NSState) (uid : Nat) :
    (s.connect uid).userId = some uid := by
  unfold NSState.connect
  rw [createConnection_userId]

theorem connect_reconnectAttempts (s : NSState) (uid : Nat) :
    (s.connect uid).reconnectAttempts = 0 := by
  unfold NSState.connect
  rw [createConnection_reconnectAttempts]

theorem disconnect_ws (s : NSState) : s.disconnect.ws = none := by
  unfold NSState.disconnect
  rcases h : s.ws with _ | i <;> simp [h]

theorem disconnect_of_ws_none (s : NSState) (h : s.ws = none) : s.disconnect = s := by
  unfold NSState.disconnect
  rw [h]

theorem interceptError_store (w : World) (e : HttpError) :
    (interceptError w e).store = w.store := by
  unfold interceptError
  rcases e with ⟨_ | s⟩ <;> simp <;> split_ifs <;> rfl

theorem interceptError_sock (w : World) (e : HttpError) :
    (interceptError w e).sock = w.sock := by
  unfold interceptError
  rcases e with ⟨_ | s⟩ <;> simp <;> split_ifs <;> rfl

theorem interceptError_token_of_ne_401 (w : World) (e : HttpError)
    (h : e.status ≠ some 401) : (interceptError w e).token = w.token := by
  unfold interceptError
  rcases e with ⟨_ | s⟩
  · simp
  · have hs : s ≠ 401 := fun hh => h (by rw [hh])
    simp [hs]
    split_ifs <;> rfl

theorem loginCatch_token (w : World) (e : HttpError) :
    (loginCatch w e).token = w.token := by
  unfold loginCatch
  split_ifs <;> rfl

theorem loginCatch_user (w : World) (e : HttpError) :
    (loginCatch w e).store.user = w.store.user := by
  unfold loginCatch
  split_ifs <;> rfl

theorem loginCatch_isAuthenticated (w : World) (e : HttpError) :
    (loginCatch w e).store.isAuthenticated = w.store.isAuthenticated := by
  unfold loginCatch
  split_ifs <;> rfl

/-! ## Claim theorems: session store and request gateway -/

/-- A fresh world: no credential, pristine store and socket, no output. -/
def wEmpty : World :=
  { token := none, location := none, toasts := [], store := initialStore, sock := NSState.init }

/-- A concrete successful token exchange. -/
def lr0 : LoginResponse := { access_token := "tok", token_type := "bearer" }

/-- Claim C3 (confirmed): any outbound call failing with a 401 deletes the
persisted credential, forces navigation to the login entry point, shows
exactly one session-expired alert, still propagates the error to the
caller, and — after the forced page load re-runs startup with no stored
credential — leaves session state unauthenticated. -/
theorem C3_401_forced_logout (w : World) (e : HttpError) (h : e.status = some 401) :
    (interceptError w e).token = none ∧
    (interceptError w e).location = some "/login" ∧
    (interceptError w e).toasts = w.toasts ++ [Toast.sessionExpired] ∧
    (∀ r : Except HttpError User,
      (initializeAuth (reload (interceptError w e)) r).store.isAuthenticated = false) ∧
    (@apiCall Unit w (Except.error e)).2 = Except.error e := by
  rcases e with ⟨st⟩
  simp only [HttpError.mk.injEq] at h
  subst h
  refine ⟨by simp [interceptError], by simp [interceptError], by simp [interceptError], ?_, rfl⟩
  intro r
  simp [interceptError, reload, initializeAuth, initialStore]

/-- Witness for C3 at a concrete 401 error and world. -/
theorem C3_401_forced_logout_witness :
    ({ status := some 401 : HttpError }.status = some 401) ∧
    (interceptError wEmpty { status := some 401 }).token = none := by
  refine ⟨rfl, (C3_401_forced_logout wEmpty { status := some 401 } rfl).1⟩

/-- Claim C6 (confirmed): a login whose token exchange and identity fetch
both succeed ends authenticated, persists exactly the returned access
token, asks the notification socket to connect with the fetched user's id,
and surfaces one welcome alert; the call returns successfully. -/
theorem C6_login_success (w : World) (lr : LoginResponse) (u : User) :
    (login w (Except.ok lr) (Except.ok u)).2 = Except.ok () ∧
    (login w (Except.ok lr) (Except.ok u)).1.store.isAuthenticated = true ∧
    (login w (Except.ok lr) (Except.ok u)).1.store.user = some u ∧
    (login w (Except.ok lr) (Except.ok u)).1.token = some lr.access_token ∧
    (login w (Except.ok lr) (Except.ok u)).1.sock.userId = some u.id ∧
    (login w (Except.ok lr) (Except.ok u)).1.toasts = w.toasts ++ [Toast.welcome u.full_name] := by
  refine ⟨rfl, rfl, rfl, rfl, ?_, rfl⟩
  simp [login, apiCall, connect_userId]

/-- Claim C7, amended part (see C7_logout_pair_counterexample): a second
logout leaves the credential, store, socket and location exactly as the
first left them and cannot throw (it is a pure state update), but it does
append a second goodbye alert — the alert is unconditional in the source. -/
theorem C7_logout_amended (w : World) :
    logout (logout w) =
      { logout w with toasts := (logout w).toasts ++ [Toast.goodbye] } := by
  have hd : w.sock.disconnect.disconnect = w.sock.disconnect :=
    disconnect_of_ws_none _ (disconnect_ws w.sock)
  simp [logout, logoutTearDown, hd]

/-- Counterexample to claim C7 as stated: from the initial world, calling
logout twice does not leave the same post-state as calling it once — the
toast history differs (a duplicate goodbye alert is shown). -/
theorem C7_logout_pair_counterexample :
    logout (logout wEmpty) ≠ logout wEmpty ∧
    (logout (logout wEmpty)).toasts = [Toast.goodbye, Toast.goodbye] := by
  constructor
  · decide
  · rfl

/-- Claim C10, amended part (see C10_token_rollback_counterexample): when
the token exchange succeeds and the identity fetch fails with anything but
a 401, the freshly persisted token is left in storage, the store's user and
authenticated flag are unchanged (still unauthenticated when starting from
unauthenticated), and the error is re-thrown to the caller.  A 401 on the
identity fetch is the exception: the response interceptor deletes the
token before login's catch-block runs. -/
theorem C10_amended (w : World) (lr : LoginResponse) (e : HttpError)
    (h : e.status ≠ some 401) :
    (login w (Except.ok lr) (Except.error e)).1.token = some lr.access_token ∧
    (login w (Except.ok lr) (Except.error e)).1.store.user = w.store.user ∧
    (login w (Except.ok lr) (Except.error e)).1.store.isAuthenticated = w.store.isAuthenticated ∧
    (login w (Except.ok lr) (Except.error e)).2 = Except.error e := by
  have h1 : (login w (Except.ok lr) (Except.error e)).1 =
      loginCatch (interceptError { w with
        store := { w.store with isLoading := true }, token := some lr.access_token } e) e := rfl
  refine ⟨?_, ?_, ?_, rfl⟩
  · rw [h1, loginCatch_token, interceptError_token_of_ne_401 _ _ h]
  · rw [h1, loginCatch_user, interceptError_store]
  · rw [h1, loginCatch_isAuthenticated, interceptError_store]

/-- Witness for C10_amended at a concrete server error. -/
theorem C10_amended_witness :
    (({ status := some 500 } : HttpError).status ≠ some 401) ∧
    (login wEmpty (Except.ok lr0) (Except.error { status := some 500 })).1.token = some "tok" := by
  refine ⟨by decide, (C10_amended wEmpty lr0 { status := some 500 } (by decide)).1⟩

/-- Counterexample to claim C10 as stated: when the identity fetch fails
with a 401, the persisted token does NOT remain — the response interceptor
deletes it, so storage holds no credential afterwards. -/
theorem C10_token_rollback_counterexample :
    (login wEmpty (Except.ok lr0) (Except.error { status := some 401 })).1.token = none ∧
    (login wEmpty (Except.ok lr0) (Except.error { status := some 401 })).1.token ≠
      some lr0.access_token := by
  exact ⟨rfl, by decide⟩

/-- A world holding a stale persisted credential, as at app startup after a
long absence. -/
def wTok : World :=
  { token := some "stale", location := none, toasts := [], store := initialStore
  , sock := NSState.init }

/-- Counterexample to claim C4 as stated: when initializeAuth's identity
fetch fails with a 401 — the expected failure for an expired credential —
a session-expired alert IS shown, because the fetch passes through the
request gateway's response interceptor before initializeAuth's silent
catch-block runs.  The path is not alert-free. -/
theorem C4_alert_counterexample :
    (initializeAuth wTok (Except.error { status := some 401 })).toasts =
      [Toast.sessionExpired] := by
  rfl

/-- Claim C4, amended part (see C4_alert_counterexample): an initializeAuth
run that starts with a persisted credential and whose identity fetch fails
deletes the credential and ends unauthenticated; initializeAuth itself
appends no alert — the toast history is exactly whatever the request
gateway interceptor produced for the underlying failure (which, for a 401,
does include a session-expired alert). -/
theorem C4_init_failure_amended (w : World) (e : HttpError) (t : String)
    (h : w.token = some t) :
    (initializeAuth w (Except.error e)).token = none ∧
    (initializeAuth w (Except.error e)).store =
      { user := none, isAuthenticated := false, isLoading := false } ∧
    (initializeAuth w (Except.error e)).toasts = (interceptError w e).toasts := by
  simp [initializeAuth, apiCall, h]

/-- Witness for C4_init_failure_amended at a concrete stale-token world. -/
theorem C4_init_failure_amended_witness :
    wTok.token = some "stale" ∧
    (initializeAuth wTok (Except.error { status := some 404 })).token = none := by
  exact ⟨rfl, (C4_init_failure_amended wTok { status := some 404 } "stale" rfl).1⟩

/-- Claim C5 (confirmed): on both authenticated-to-unauthenticated paths
the notification channel is torn down no later than the identity is
cleared.  Logout disconnects the socket first — after its teardown half the
socket reference is already gone while the store is still untouched — and
ends with both socket and identity cleared.  The 401 interceptor clears
neither identity nor socket in-process; it deletes the credential and
forces navigation, and the resulting page load discards socket and
identity together, re-initializing both. -/
theorem C5_channel_not_outlive_session (w : World) (e : HttpError)
    (h : e.status = some 401) :
    (logoutTearDown w).sock.ws = none ∧
    (logoutTearDown w).store = w.store ∧
    (logout w).sock.ws = none ∧
    (logout w).store.user = none ∧
    (logout w).store.isAuthenticated = false ∧
    (interceptError w e).store = w.store ∧
    (interceptError w e).sock = w.sock ∧
    (interceptError w e).location = some "/login" ∧
    (reload (interceptError w e)).sock.ws = none ∧
    (reload (interceptError w e)).store.user = none ∧
    (reload (interceptError w e)).store.isAuthenticated = false := by
  rcases e with ⟨st⟩
  simp only [HttpError.mk.injEq] at h
  subst h
  refine ⟨disconnect_ws w.sock, rfl, disconnect_ws w.sock, rfl, rfl,
    interceptError_store _ _, interceptError_sock _ _, by simp [interceptError], rfl, rfl, rfl⟩

/-- Witness for C5 at a concrete world and 401 error. -/
theorem C5_channel_not_outlive_session_witness :
    (({ status := some 401 } : HttpError).status = some 401) ∧
    (logout wTok).sock.ws = none := by
  exact ⟨rfl, (C5_channel_not_outlive_session wTok { status := some 401 } rfl).2.2.1⟩

/-! ## Claim theorems: inbound message handling -/

/-- An envelope with the recognized type but no ticket field: parseable,
yet `ticket.title` throws inside handleMessage. -/
def malformedEnvelope : JsonVal :=
  JsonVal.jobj [("type", JsonVal.jstr "ticket_updated")]

/-- Claim C8 (confirmed): the onmessage handler never lets an exception
escape and never touches the connection.  For every inbound frame the
handler leaves the socket list and the held reference unchanged (the
connection stays open); an unparseable frame — JSON.parse throwing, e.g. on
the text not-json — is logged and dropped with no alert; and a parseable
envelope with malformed fields (recognized type but no ticket, so the
title access throws a TypeError inside handleMessage) is caught by the
same try-block: it is logged, produces no alert, and the handler returns
normally. -/
theorem C8_onmessage_never_throws (s : NSState) (p : Option JsonVal) :
    (onmessage s p).sockets = s.sockets ∧
    (onmessage s p).ws = s.ws ∧
    (onmessage s none).toasts = s.toasts ∧
    (onmessage s none).logs = s.logs ++ ["WebSocket message parse error"] ∧
    handleMessage malformedEnvelope = Except.error () ∧
    (onmessage s (some malformedEnvelope)).toasts = s.toasts ∧
    (onmessage s (some malformedEnvelope)).logs =
      s.logs ++ ["WebSocket message parse error"] := by
  refine ⟨?_, ?_, rfl, rfl, rfl, rfl, rfl⟩ <;>
  · rcases p with _ | data
    · rfl
    · unfold onmessage onmessageBody
      rcases h : handleMessage data with _ | t
      · simp [h, Except.map]
      · rcases t with _ | toast <;> simp [h, Except.map]

/-! ## Claim theorems: reconnect state machine -/

theorem attemptReconnect_sockets (s : NSState) :
    s.attemptReconnect.sockets = s.sockets := by
  unfold NSState.attemptReconnect
  split <;> rfl

theorem attemptReconnect_ws (s : NSState) :
    s.attemptReconnect.ws = s.ws := by
  unfold NSState.attemptReconnect
  split <;> rfl

theorem attemptReconnect_toasts (s : NSState) :
    s.attemptReconnect.toasts = s.toasts := by
  unfold NSState.attemptReconnect
  split <;> rfl

/-- Claim C9 (confirmed): disconnect does not suppress reconnection.  After
disconnecting an open connection the reference is cleared, but the closed
socket keeps its handlers: it is left CLOSING, and when its close event
arrives the close handler still runs attemptReconnect — while the counter
is below the ceiling the attempt is counted and a new connection attempt is
scheduled after the fixed retry interval, even though the caller asked to
disconnect. -/
theorem C9_disconnect_still_reconnects (s : NSState) (i : Nat) (sk : Sock)
    (hws : s.ws = some i) (hget : s.sockets[i]? = some sk)
    (hst : sk.state = ReadyState.opened)
    (hatt : s.reconnectAttempts < s.maxReconnectAttempts) :
    s.disconnect.ws = none ∧
    s.disconnect.sockets[i]? = some { sk with state := ReadyState.closing } ∧
    (s.disconnect.sockClosed i).reconnectAttempts = s.reconnectAttempts + 1 ∧
    (s.disconnect.sockClosed i).pendingTimers =
      s.pendingTimers ++ [s.reconnectInterval] := by
  have hlt : i < s.sockets.length := by
    rcases List.getElem?_eq_some_iff.mp hget with ⟨hl, _⟩
    exact hl
  have hdis : s.disconnect =
      { s with ws := none,
               sockets := s.sockets.set i { sk with state := ReadyState.closing } } := by
    unfold NSState.disconnect
    rw [hws]
    simp [hget, hst]
  have hget' : s.disconnect.sockets[i]? = some { sk with state := ReadyState.closing } := by
    rw [hdis]
    simp [List.getElem?_set_self', hget, Function.const]
  refine ⟨disconnect_ws s, hget', ?_, ?_⟩ <;>
  · unfold NSState.sockClosed
    rw [hget']
    simp only [hdis]
    unfold NSState.attemptReconnect
    simp [Nat.not_le.mpr hatt]

/-- Witness for C9: connect then let the handshake complete; disconnect the
open socket and deliver its close event. -/
theorem C9_disconnect_still_reconnects_witness :
    ((nsRun NSState.init [NSEvent.evConnect 7, NSEvent.evOpen 0]).ws = some 0) ∧
    ((nsRun NSState.init [NSEvent.evConnect 7, NSEvent.evOpen 0]).disconnect.sockClosed 0).pendingTimers = [5000] := by
  refine ⟨by decide, ?_⟩
  have h := C9_disconnect_still_reconnects
    (nsRun NSState.init [NSEvent.evConnect 7, NSEvent.evOpen 0]) 0
    { state := ReadyState.opened, url := "ws://localhost:3000/api/tickets/ws/7" }
    (by decide) (by decide) (by decide) (by decide)
  exact h.2.2.2

/-- The numeric reconnect-policy invariant: the ceiling and interval hold
their initializer values, the attempt counter never exceeds the ceiling,
and every scheduled reconnect timer carries the fixed 5000ms delay. -/
def NumInv (s : NSState) : Prop :=
  s.maxReconnectAttempts = 10 ∧ s.reconnectInterval = 5000 ∧
  s.reconnectAttempts ≤ 10 ∧ ∀ d ∈ s.pendingTimers, d = 5000

theorem NumInv_init : NumInv NSState.init := by
  refine ⟨rfl, rfl, by decide, ?_⟩
  intro d hd
  simp [NSState.init] at hd

theorem NumInv_createConnection (s : NSState) (h : NumInv s) :
    NumInv s.createConnection := by
  unfold NSState.createConnection
  split
  · exact h
  · exact h

theorem NumInv_attemptReconnect (s : NSState) (h : NumInv s) :
    NumInv s.attemptReconnect := by
  obtain ⟨hm, hi, ha, ht⟩ := h
  unfold NSState.attemptReconnect
  split
  · exact ⟨hm, hi, ha, ht⟩
  · next hlt =>
    have hub : s.reconnectAttempts + 1 ≤ 10 := by omega
    refine ⟨hm, hi, hub, ?_⟩
    intro d hd
    rcases List.mem_append.mp hd with h1 | h1
    · exact ht d h1
    · rw [List.mem_singleton.mp h1, hi]

theorem NumInv_step (s : NSState) (e : NSEvent) (h : NumInv s) :
    NumInv (nsStep s e) := by
  obtain ⟨hm, hi, ha, ht⟩ := h
  cases e with
  | evConnect uid =>
    exact NumInv_createConnection _ ⟨hm, hi, Nat.zero_le 10, ht⟩
  | evDisconnect =>
    show NumInv s.disconnect
    unfold NSState.disconnect
    cases hws : s.ws with
    | none => simp only [hws]; exact ⟨hm, hi, ha, ht⟩
    | some i => simp only [hws]; exact ⟨hm, hi, ha, ht⟩
  | evOpen i =>
    show NumInv (s.sockOpened i)
    unfold NSState.sockOpened
    cases hg : s.sockets[i]? with
    | none => simp only [hg]; exact ⟨hm, hi, ha, ht⟩
    | some sk =>
      simp only [hg]
      by_cases hc : sk.state = ReadyState.connecting
      · rw [if_pos hc]; exact ⟨hm, hi, Nat.zero_le 10, ht⟩
      · rw [if_neg hc]; exact ⟨hm, hi, ha, ht⟩
  | evClose i =>
    show NumInv (s.sockClosed i)
    unfold NSState.sockClosed
    cases hg : s.sockets[i]? with
    | none => simp only [hg]; exact ⟨hm, hi, ha, ht⟩
    | some sk =>
      simp only [hg]
      by_cases hc : sk.state = ReadyState.closed
      · rw [if_pos hc]; exact ⟨hm, hi, ha, ht⟩
      · rw [if_neg hc]; exact NumInv_attemptReconnect _ ⟨hm, hi, ha, ht⟩
  | evTimer =>
    show NumInv s.timerFire
    unfold NSState.timerFire
    cases hp : s.pendingTimers with
    | nil => simp only [hp]; exact ⟨hm, hi, ha, ht⟩
    | cons d rest =>
      simp only [hp]
      refine NumInv_createConnection _ ⟨hm, hi, ha, ?_⟩
      intro d' hd'
      exact ht d' (hp ▸ List.mem_cons_of_mem _ hd')

theorem NumInv_run (es : List NSEvent) (s : NSState) (h : NumInv s) :
    NumInv (nsRun s es) := by
  induction es generalizing s with
  | nil => exact h
  | cons e es ih => exact ih _ (NumInv_step s e h)

/-- Claim C2 (confirmed): the reconnect policy.  (1) In every run from the
initial state the attempt counter never exceeds the ceiling of 10 and every
scheduled reconnect timer carries the fixed 5000ms retry delay, so retries
are spaced by the fixed interval.  (2) While attempts keep failing — no
connect call and no successful open — the counter never decreases.  (3) A
close event that observes the counter at the ceiling schedules no further
connection attempt and shows no alert.  (4) A close event below the ceiling
counts the attempt and schedules exactly one retry after the fixed
interval.  (5) A connect call resets the counter to zero. -/
theorem C2_reconnect_policy :
    (∀ es : List NSEvent,
      (nsRun NSState.init es).reconnectAttempts ≤ 10 ∧
      ∀ d ∈ (nsRun NSState.init es).pendingTimers, d = 5000) ∧
    (∀ (s : NSState) (e : NSEvent),
      (∀ uid, e ≠ NSEvent.evConnect uid) →
      (∀ i sk, e = NSEvent.evOpen i → s.sockets[i]? = some sk →
        sk.state ≠ ReadyState.connecting) →
      s.reconnectAttempts ≤ (nsStep s e).reconnectAttempts) ∧
    (∀ (s : NSState) (i : Nat), s.maxReconnectAttempts ≤ s.reconnectAttempts →
      (nsStep s (NSEvent.evClose i)).pendingTimers = s.pendingTimers ∧
      (nsStep s (NSEvent.evClose i)).toasts = s.toasts) ∧
    (∀ (s : NSState) (i : Nat) (sk : Sock),
      s.reconnectAttempts < s.maxReconnectAttempts →
      s.sockets[i]? = some sk → sk.state ≠ ReadyState.closed →
      (nsStep s (NSEvent.evClose i)).pendingTimers =
        s.pendingTimers ++ [s.reconnectInterval] ∧
      (nsStep s (NSEvent.evClose i)).reconnectAttempts = s.reconnectAttempts + 1) ∧
    (∀ (s : NSState) (uid : Nat),
      (nsStep s (NSEvent.evConnect uid)).reconnectAttempts = 0) := by
  refine ⟨?_, ?_, ?_, ?_, ?_⟩
  · intro es
    obtain ⟨_, _, ha, ht⟩ := NumInv_run es NSState.init NumInv_init
    exact ⟨ha, ht⟩
  · intro s e h1 h2
    cases e with
    | evConnect uid => exact absurd rfl (h1 uid)
    | evDisconnect =>
      show s.reconnectAttempts ≤ s.disconnect.reconnectAttempts
      unfold NSState.disconnect
      cases hws : s.ws with
      | none => exact Nat.le_refl _
      | some i => simp only [hws]; exact Nat.le_refl _
    | evOpen i =>
      show s.reconnectAttempts ≤ (s.sockOpened i).reconnectAttempts
      unfold NSState.sockOpened
      cases hg : s.sockets[i]? with
      | none => simp only [hg]; exact Nat.le_refl _
      | some sk =>
        simp only [hg]
        rw [if_neg (h2 i sk rfl hg)]
    | evClose i =>
      show s.reconnectAttempts ≤ (s.sockClosed i).reconnectAttempts
      unfold NSState.sockClosed
      cases hg : s.sockets[i]? with
      | none => simp only [hg]; exact Nat.le_refl _
      | some sk =>
        simp only [hg]
        by_cases hc : sk.state = ReadyState.closed
        · rw [if_pos hc]
        · rw [if_neg hc]
          unfold NSState.attemptReconnect
          by_cases hge : s.reconnectAttempts ≥ s.maxReconnectAttempts
          · rw [if_pos hge]
          · rw [if_neg hge]
            exact Nat.le_succ _
    | evTimer =>
      show s.reconnectAttempts ≤ s.timerFire.reconnectAttempts
      unfold NSState.timerFire
      cases hp : s.pendingTimers with
      | nil => exact Nat.le_refl _
      | cons d rest =>
        simp only [hp]
        rw [createConnection_reconnectAttempts]
  · intro s i hge
    show (s.sockClosed i).pendingTimers = s.pendingTimers ∧
         (s.sockClosed i).toasts = s.toasts
    unfold NSState.sockClosed
    cases hg : s.sockets[i]? with
    | none => simp [hg]
    | some sk =>
      simp only [hg]
      by_cases hc : sk.state = ReadyState.closed
      · rw [if_pos hc]; exact ⟨rfl, rfl⟩
      · rw [if_neg hc]
        unfold NSState.attemptReconnect
        rw [if_pos hge]
        exact ⟨rfl, rfl⟩
  · intro s i sk hlt hg hnc
    show (s.sockClosed i).pendingTimers = s.pendingTimers ++ [s.reconnectInterval] ∧
         (s.sockClosed i).reconnectAttempts = s.reconnectAttempts + 1
    unfold NSState.sockClosed
    simp only [hg]
    rw [if_neg hnc]
    unfold NSState.attemptReconnect
    rw [if_neg (Nat.not_le.mpr hlt)]
    exact ⟨rfl, rfl⟩
  · intro s uid
    exact connect_reconnectAttempts s uid

/-- A state whose attempt counter has reached the ceiling. -/
def s10 : NSState := { NSState.init with reconnectAttempts := 10 }

/-- The state after one connect call: one CONNECTING socket, held. -/
def sConn : NSState := nsRun NSState.init [NSEvent.evConnect 1]

/-- Witness for C2 at concrete runs: a failing-handshake trace stays within
the policy; a state at the ceiling gives up silently on close; a state
below the ceiling schedules one 5000ms retry; connect resets the counter. -/
theorem C2_reconnect_policy_witness :
    ((nsRun NSState.init [NSEvent.evConnect 1, NSEvent.evClose 0]).reconnectAttempts ≤ 10) ∧
    (NSState.init.reconnectAttempts ≤ (nsStep NSState.init NSEvent.evDisconnect).reconnectAttempts) ∧
    ((nsStep s10 (NSEvent.evClose 0)).pendingTimers = s10.pendingTimers ∧
      (nsStep s10 (NSEvent.evClose 0)).toasts = s10.toasts) ∧
    ((nsStep sConn (NSEvent.evClose 0)).pendingTimers =
        sConn.pendingTimers ++ [sConn.reconnectInterval] ∧
      (nsStep sConn (NSEvent.evClose 0)).reconnectAttempts = sConn.reconnectAttempts + 1) ∧
    ((nsStep sConn (NSEvent.evConnect 5)).reconnectAttempts = 0) := by
  refine ⟨(C2_reconnect_policy.1 [NSEvent.evConnect 1, NSEvent.evClose 0]).1,
    C2_reconnect_policy.2.1 NSState.init NSEvent.evDisconnect
      (fun uid h => by cases h) (fun i sk h => by cases h),
    C2_reconnect_policy.2.2.1 s10 0 (by decide),
    C2_reconnect_policy.2.2.2.1 sConn 0
      { state := ReadyState.connecting, url := "ws://localhost:3000/api/tickets/ws/1" }
      (by decide) (by decide) (by decide),
    C2_reconnect_policy.2.2.2.2 sConn 5⟩

/-! ### Claim C1: at most one open connection -/

/-- No socket of the instance is mid-handshake. -/
def noConnecting (s : NSState) : Bool :=
  s.sockets.all (fun sk => !(sk.state == ReadyState.connecting))

/-- An event is paced when it starts no connection attempt while an earlier
attempt is still mid-handshake: connect calls and reconnect-timer firings
require no CONNECTING socket; the remaining events are unrestricted. -/
def pacedEvent (s : NSState) : NSEvent → Bool
  | .evConnect _ => noConnecting s
  | .evTimer => noConnecting s
  | _ => true

/-- A trace is well-paced when every event in it is paced in the state it
fires from. -/
def wellPaced : NSState → List NSEvent → Bool
  | _, [] => true
  | s, e :: es => pacedEvent s e && wellPaced (nsStep s e) es

/-- The inductive invariant behind the amended C1: every socket that is
CONNECTING or OPEN is the currently referenced one. -/
def HeldInv (s : NSState) : Prop :=
  ∀ i sk, s.sockets[i]? = some sk →
    sk.state = ReadyState.connecting ∨ sk.state = ReadyState.opened →
    s.ws = some i

theorem HeldInv_init : HeldInv NSState.init := by
  intro i sk h
  simp [NSState.init] at h

theorem HeldInv_createConnection (s : NSState) (h : HeldInv s)
    (hnc : noConnecting s = true) : HeldInv s.createConnection := by
  unfold NSState.createConnection
  by_cases ho : NSState.heldOpen s
  · rw [if_pos ho]; exact h
  · rw [if_neg ho]
    intro i sk hget hlive
    by_cases hi : i < s.sockets.length
    · rw [List.getElem?_append_left hi] at hget
      exfalso
      rcases hlive with hc | hop
      · have hmem : sk ∈ s.sockets := List.mem_iff_getElem?.mpr ⟨i, hget⟩
        have := List.all_eq_true.mp hnc sk hmem
        simp [hc] at this
      · have hws := h i sk hget (Or.inr hop)
        apply ho
        unfold NSState.heldOpen
        simp only [hws, hget, hop]
        rfl
    · have hle : s.sockets.length ≤ i := Nat.not_lt.mp hi
      rw [List.getElem?_append_right hle] at hget
      rcases List.getElem?_eq_some_iff.mp hget with ⟨hl, _⟩
      simp only [List.length_singleton] at hl
      have : i = s.sockets.length := by omega
      rw [this]

theorem HeldInv_disconnect (s : NSState) (h : HeldInv s) :
    HeldInv s.disconnect := by
  unfold NSState.disconnect
  cases hws : s.ws with
  | none => simp only [hws]; exact h
  | some j =>
    simp only [hws]
    intro i sk hget hlive
    exfalso
    cases hgj : s.sockets[j]? with
    | none =>
      simp only [hgj] at hget
      have hwsi := h i sk hget hlive
      rw [hws] at hwsi
      have hij : j = i := by injection hwsi
      rw [hij] at hgj
      rw [hgj] at hget
      cases hget
    | some skj =>
      simp only [hgj] at hget
      by_cases hcl : skj.state = ReadyState.connecting ∨ skj.state = ReadyState.opened
      · rw [if_pos hcl] at hget
        by_cases hij : j = i
        · subst hij
          rw [List.getElem?_set_self', hgj] at hget
          simp only [Function.const, Option.map_eq_map, Option.map_some'] at hget
          have hsk : sk = { skj with state := ReadyState.closing } := by
            injection hget with hh
            exact hh.symm
          rcases hlive with hc | hop
          · rw [hsk] at hc; cases hc
          · rw [hsk] at hop; cases hop
        · rw [List.getElem?_set_ne hij] at hget
          have hwsi := h i sk hget hlive
          rw [hws] at hwsi
          exact hij (by injection hwsi)
      · rw [if_neg hcl] at hget
        have hwsi := h i sk hget hlive
        rw [hws] at hwsi
        have hij : j = i := by injection hwsi
        rw [hij] at hgj
        rw [hgj] at hget
        have hsk : sk = skj := by injection hget with hh; exact hh.symm
        rw [hsk] at hlive
        exact hcl hlive

theorem HeldInv_sockOpened (s : NSState) (k : Nat) (h : HeldInv s) :
    HeldInv (s.sockOpened k) := by
  unfold NSState.sockOpened
  cases hg : s.sockets[k]? with
  | none => simp only [hg]; exact h
  | some sk =>
    simp only [hg]
    by_cases hc : sk.state = ReadyState.connecting
    · rw [if_pos hc]
      intro i sk' hget hlive
      by_cases hki : k = i
      · subst hki
        exact h k sk hg (Or.inl hc)
      · rw [List.getElem?_set_ne hki] at hget
        exact h i sk' hget hlive
    · rw [if_neg hc]; exact h

theorem HeldInv_sockClosed (s : NSState) (k : Nat) (h : HeldInv s) :
    HeldInv (s.sockClosed k) := by
  unfold NSState.sockClosed
  cases hg : s.sockets[k]? with
  | none => simp only [hg]; exact h
  | some sk =>
    simp only [hg]
    by_cases hc : sk.state = ReadyState.closed
    · rw [if_pos hc]; exact h
    · rw [if_neg hc]
      intro i sk' hget hlive
      rw [attemptReconnect_sockets] at hget
      rw [attemptReconnect_ws]
      by_cases hki : k = i
      · subst hki
        rw [List.getElem?_set_self', hg] at hget
        simp only [Function.const, Option.map_eq_map, Option.map_some'] at hget
        have hsk : sk' = { sk with state := ReadyState.closed } := by
          injection hget with hh
          exact hh.symm
        rcases hlive with hcc | hop
        · rw [hsk] at hcc; cases hcc
        · rw [hsk] at hop; cases hop
      · rw [List.getElem?_set_ne hki] at hget
        exact h i sk' hget hlive

theorem HeldInv_timerFire (s : NSState) (h : HeldInv s)
    (hnc : noConnecting s = true) : HeldInv s.timerFire := by
  unfold NSState.timerFire
  cases hp : s.pendingTimers with
  | nil => simp only [hp]; exact h
  | cons d rest =>
    simp only [hp]
    exact HeldInv_createConnection _ h hnc

theorem HeldInv_step (s : NSState) (e : NSEvent) (h : HeldInv s)
    (hp : pacedEvent s e = true) : HeldInv (nsStep s e) := by
  cases e with
  | evConnect uid => exact HeldInv_createConnection _ h hp
  | evDisconnect => exact HeldInv_disconnect s h
  | evOpen i => exact HeldInv_sockOpened s i h
  | evClose i => exact HeldInv_sockClosed s i h
  | evTimer => exact HeldInv_timerFire s h hp

theorem HeldInv_run (es : List NSEvent) (s : NSState) (h : HeldInv s)
    (hw : wellPaced s es = true) : HeldInv (nsRun s es) := by
  induction es generalizing s with
  | nil => exact h
  | cons e es ih =>
    simp only [wellPaced, Bool.and_eq_true] at hw
    exact ih _ (HeldInv_step s e h hw.1) hw.2

theorem countP_le_one_of_unique_index {α : Type} (p : α → Bool) :
    ∀ l : List α,
      (∀ (i j : Nat) (a b : α), l[i]? = some a → l[j]? = some b →
        p a = true → p b = true → i = j) →
      l.countP p ≤ 1 := by
  intro l
  induction l with
  | nil => intro _; simp [List.countP_nil]
  | cons x l ih =>
    intro h
    by_cases hx : p x = true
    · rw [List.countP_cons_of_pos _ _ hx]
      have hz : l.countP p = 0 := by
        rw [List.countP_eq_zero]
        intro a ha hpa
        obtain ⟨n, hn⟩ := List.mem_iff_getElem?.mp ha
        have h0 : (0 : Nat) = n + 1 :=
          h 0 (n + 1) x a (by simp) (by simpa using hn) hx hpa
        omega
      omega
    · rw [List.countP_cons_of_neg _ _ hx]
      apply ih
      intro i j a b hi hj hpa hpb
      have := h (i + 1) (j + 1) a b (by simpa using hi) (by simpa using hj) hpa hpb
      omega

/-- Two overlapping connect calls: the second abandons the first socket
mid-handshake without closing it, and both handshakes then complete. -/
def trOverlap : List NSEvent :=
  [NSEvent.evConnect 1, NSEvent.evConnect 1, NSEvent.evOpen 0, NSEvent.evOpen 1]

/-- Counterexample to claim C1 as stated: after connect, connect, and both
handshake completions, two connections are open at the same instant.  The
ready-state guard only inspects the currently held socket, so the second
connect overwrites the reference to the still-CONNECTING first socket
without closing it. -/
theorem C1_two_open_counterexample :
    countOpen (nsRun NSState.init trOverlap) = 2 := by
  decide

/-- Claim C1, amended part (see C1_two_open_counterexample): over every
well-paced trace — one in which no connection attempt (connect call or
reconnect-timer firing) starts while an earlier socket is still
mid-handshake — at most one connection is open at any instant: a connection
attempt is skipped whenever the currently held connection's ready-state is
open, and disconnect closes the held connection and clears the reference.
Without the pacing restriction an attempt begun during another's handshake
abandons that socket without closing it and both may be open at once. -/
theorem C1_at_most_one_open_amended (es : List NSEvent)
    (h : wellPaced NSState.init es = true) :
    countOpen (nsRun NSState.init es) ≤ 1 := by
  apply countP_le_one_of_unique_index
  intro i j a b hi hj hpa hpb
  have hinv := HeldInv_run es NSState.init HeldInv_init h
  have h1 := hinv i a hi (Or.inr (by simpa using hpa))
  have h2 := hinv j b hj (Or.inr (by simpa using hpb))
  rw [h1] at h2
  injection h2

/-- A well-paced trace exercising connect, open, disconnect, the close
event, the reconnect timer and a second open. -/
def trPaced : List NSEvent :=
  [NSEvent.evConnect 1, NSEvent.evOpen 0, NSEvent.evDisconnect,
   NSEvent.evClose 0, NSEvent.evTimer, NSEvent.evOpen 1]

/-- Witness for the amended C1 on a concrete well-paced trace. -/
theorem C1_at_most_one_open_amended_witness :
    wellPaced NSState.init trPaced = true ∧
    countOpen (nsRun NSState.init trPaced) ≤ 1 :=
  ⟨by decide, C1_at_most_one_open_amended trPaced (by decide)⟩

end Fixer
